import Mathlib

/-
  Verification of the libclang discovery and doxygen comment-cleanup
  utilities (plugin/clang/utils.py) against their specification.

  The Python module is shallowly embedded below.  External capabilities
  (the filesystem queries of os.path and the subprocess invocation) are
  passed in as an explicit environment record; the concrete posix path
  functions (os.path on Linux/macOS) are embedded as well so that claims
  can be evaluated on concrete path strings.  `subprocess.check_output`
  either returns captured output or raises; the latter is modelled by the
  invocation capability returning `none`, and an escaping exception by the
  result `SearchRes.raised`.

  The Python string primitives (strip, slicing, split, startswith, join,
  replace) are embedded as structurally recursive functions over character
  lists so that every definition evaluates by kernel reduction.
-/

/- ### Python string primitives over character lists -/

/-- Python `str.isspace` characters relevant to `str.strip()`. -/
def pyIsSpace (c : Char) : Bool :=
  c == ' ' || c == '\t' || c == '\n' || c == '\r' || c == '\x0b' || c == '\x0c'

/-- Python `s.strip()`: remove leading and trailing whitespace. -/
def pyStrip (s : String) : String :=
  String.mk (((s.data.dropWhile pyIsSpace).reverse.dropWhile pyIsSpace).reverse)

/-- Python slicing `s[k:]`. -/
def pyDrop (s : String) (k : Nat) : String :=
  String.mk (s.data.drop k)

/-- Python slicing `s[:-k]`. -/
def pyDropRight (s : String) (k : Nat) : String :=
  String.mk (s.data.take (s.data.length - k))

/-- Python `s.startswith(pre)`. -/
def pyStartsWith (s pre : String) : Bool :=
  pre.data.isPrefixOf s.data

/-- Python `s.endswith(suf)`. -/
def pyEndsWith (s suf : String) : Bool :=
  suf.data.isSuffixOf s.data

/-- Split a character list at every occurrence of the character `c`. -/
def splitChar (c : Char) : List Char → List (List Char)
  | [] => [[]]
  | x :: xs =>
    let r := splitChar c xs
    if x == c then [] :: r
    else
      match r with
      | [] => [[x]]
      | h :: t => (x :: h) :: t

/-- Python `s.split(c)` for a one-character separator. -/
def pySplit (s : String) (c : Char) : List String :=
  (splitChar c s.data).map String.mk

/-- Join character lists with a separator list between consecutive parts. -/
def interleave (sep : List Char) : List (List Char) → List Char
  | [] => []
  | [x] => x
  | x :: y :: xs => x ++ sep ++ interleave sep (y :: xs)

/-- Python `sep.join(parts)`. -/
def pyJoin (sep : String) (parts : List String) : String :=
  String.mk (interleave sep.data (parts.map String.data))

/-- Fuel-driven scan implementing Python `s.replace(old, new)` for a
non-empty pattern: at each position, if the pattern is a prefix, emit the
replacement and skip the pattern, else keep one character. -/
def replaceAux (pat new : List Char) : Nat → List Char → List Char
  | 0, cs => cs
  | _ + 1, [] => []
  | fuel + 1, c :: cs =>
    if pat.isPrefixOf (c :: cs) then
      new ++ replaceAux pat new fuel ((c :: cs).drop pat.length)
    else
      c :: replaceAux pat new fuel cs

/-- Python `s.replace(old, new)` (non-empty `old`). -/
def pyReplace (s old new : String) : String :=
  String.mk (replaceAux old.data new.data s.data.length s.data)

example : pyReplace "libclang-$version.so" "$version" "3.8" = "libclang-3.8.so" := by decide
example : pyStrip "  /usr/lib \n" = "/usr/lib" := by decide
example : pySplit "a\n\nb" '\n' = ["a", "", "b"] := by decide
example : pyJoin "<br>" ["a", "b"] = "a<br>b" := by decide

/- ### Platforms and the external environment -/

/-- The three operating systems distinguished by `platform.system()` in the
source: "Windows", "Linux" and "Darwin". -/
inductive Platform where
  | windows
  | linux
  | darwin
deriving DecidableEq

/-- External capabilities used by the discovery code: the os.path filesystem
queries and the external process invocation.  `run cmd = none` models
`subprocess.check_output` raising (non-zero exit, missing executable);
`run cmd = some out` models captured output decoded to text. -/
structure OsEnv where
  pathExists : String → Bool
  isdir : String → Bool
  dirname : String → String
  basename : String → String
  normpath : String → String
  join : String → String → String
  run : List String → Option String

/- ### Embedding of the posix path operations (os.path on Linux/macOS) -/

/-- Index just past the last '/' in the character list, 0 when there is no
slash: `p.rfind(sep) + 1` of posixpath. -/
def lastSepSucc (cs : List Char) : Nat :=
  (List.range cs.length).foldl
    (fun acc j => if cs.getD j ' ' == '/' then j + 1 else acc) 0

/-- posixpath.dirname: everything up to the last '/', with trailing slashes
stripped unless the head consists only of slashes. -/
def posixDirname (p : String) : String :=
  let cs := p.data
  let i := lastSepSucc cs
  let head := cs.take i
  if head.isEmpty || head.all (fun c => c == '/') then String.mk head
  else String.mk ((head.reverse.dropWhile (fun c => c == '/')).reverse)

/-- posixpath.basename: everything after the last '/'. -/
def posixBasename (p : String) : String :=
  String.mk (p.data.drop (lastSepSucc p.data))

/-- posixpath.join restricted to two components. -/
def posixJoin (a b : String) : String :=
  if pyStartsWith b "/" then b
  else if a == "" || pyEndsWith a "/" then a ++ b
  else a ++ "/" ++ b

/-- posixpath.normpath: collapse '.', '..' and repeated separators,
preserving one or two initial slashes. -/
def posixNormpath (p : String) : String :=
  if p == "" then "."
  else
    let initialSlashes : Nat :=
      if pyStartsWith p "//" && !(pyStartsWith p "///") then 2
      else if pyStartsWith p "/" then 1
      else 0
    let newComps := (pySplit p '/').foldl
      (fun acc comp =>
        if comp == "" || comp == "." then acc
        else if comp != ".." || (initialSlashes == 0 && acc.isEmpty)
            || (!acc.isEmpty && acc.getLastD "" == "..") then acc ++ [comp]
        else if !acc.isEmpty then acc.dropLast
        else acc)
      ([] : List String)
    let joined := String.mk (List.replicate initialSlashes '/')
      ++ pyJoin "/" newComps
    if joined == "" then "." else joined

/-- An environment whose path operations are the posix ones, with an empty
filesystem and an invocation that always captures empty output. -/
def posixEnv : OsEnv where
  pathExists := fun _ => false
  isdir := fun _ => false
  dirname := posixDirname
  basename := posixBasename
  normpath := posixNormpath
  join := posixJoin
  run := fun _ => some ""

example : posixDirname "/a/x.so" = "/a" := by decide
example : posixDirname "x.so" = "" := by decide
example : posixBasename "/a/x.so" = "x.so" := by decide
example : posixNormpath "/usr/lib/llvm/" = "/usr/lib/llvm" := by decide
example : posixJoin "/usr/lib" "libclang.so" = "/usr/lib/libclang.so" := by decide

/- ### Embedding of the doxygen comment cleanup (ClangUtils.cleanup_comment) -/

/-- Loop state of `cleanup_comment`: the accumulator `clean_lines`, the
`prev_line` variable and the `is_brief_comment` flag. -/
structure CommentState where
  clean_lines : List String
  prev_line : String
  is_brief_comment : Bool
deriving DecidableEq

/-- One iteration of the `for line in lines` loop of `cleanup_comment`.
The first two `clean` bindings mirror the branch on the leading character;
the third binding mirrors the unconditional re-slicing of the untrimmed
line from offset 3 in the source, which overwrites them. -/
def cleanupStep (st : CommentState) (line : String) : CommentState :=
  let clean := pyStrip line
  let clean := if pyStartsWith clean "/" then pyDrop clean 3
    else if pyStartsWith clean "*" then pyDrop clean 2
    else clean
  let clean := pyStrip (pyDrop line 3)
  let prev_line := clean
  if pyStartsWith clean "@brief" || pyStartsWith clean "/brief" then
    ⟨st.clean_lines, prev_line, true⟩
  else
    let is_brief_comment := if clean == "" then false else st.is_brief_comment
    if clean == "" && prev_line == "" then
      ⟨st.clean_lines, prev_line, is_brief_comment⟩
    else if is_brief_comment then
      ⟨st.clean_lines, prev_line, is_brief_comment⟩
    else
      ⟨st.clean_lines ++ [clean], prev_line, is_brief_comment⟩

/-- The list `clean_lines` produced by the loop of `cleanup_comment`. -/
def cleanup_lines (raw_comment : String) : List String :=
  ((pySplit raw_comment '\n').foldl cleanupStep ⟨[], "", false⟩).clean_lines

/-- ClangUtils.cleanup_comment: split on newlines, run the cleanup loop and
join the surviving lines with "<br>". -/
def cleanup_comment (raw_comment : String) : String :=
  pyJoin "<br>" (cleanup_lines raw_comment)

/- ### Properties of the comment cleanup -/

/-- Each loop iteration either leaves `clean_lines` unchanged or appends the
re-sliced, stripped line, and an appended line is never empty. -/
theorem cleanupStep_appends (st : CommentState) (line : String) :
    (cleanupStep st line).clean_lines = st.clean_lines ∨
      ((cleanupStep st line).clean_lines
          = st.clean_lines ++ [pyStrip (pyDrop line 3)]
        ∧ pyStrip (pyDrop line 3) ≠ "") := by
  simp only [cleanupStep]
  by_cases hb : (pyStartsWith (pyStrip (pyDrop line 3)) "@brief"
      || pyStartsWith (pyStrip (pyDrop line 3)) "/brief") = true
  · simp [hb]
  · by_cases he : pyStrip (pyDrop line 3) = ""
    · have hb1 : pyStartsWith "" "@brief" = false := by decide
      have hb2 : pyStartsWith "" "/brief" = false := by decide
      simp [hb, he, hb1, hb2]
    · have hbe : (pyStrip (pyDrop line 3) == "") = false := by
        simpa using he
      by_cases hbr : st.is_brief_comment
      · simp [hb, hbe, hbr]
      · simp [hb, hbe, hbr, he]

/-- Every line in the accumulator after folding the cleanup loop is
non-empty, provided every line in the initial accumulator is. -/
theorem cleanup_fold_nonempty :
    ∀ (lines : List String) (st : CommentState),
      (∀ l ∈ st.clean_lines, l ≠ "") →
      ∀ l ∈ (lines.foldl cleanupStep st).clean_lines, l ≠ "" := by
  intro lines
  induction lines with
  | nil => intro st h; simpa using h
  | cons x xs ih =>
    intro st h
    simp only [List.foldl_cons]
    apply ih
    intro l hl
    rcases cleanupStep_appends st x with hc | ⟨hc, hne⟩
    · exact h l (hc ▸ hl)
    · rw [hc] at hl
      rcases List.mem_append.mp hl with hmem | hmem
      · exact h l hmem
      · rw [List.mem_singleton.mp hmem]
        exact hne

/-- C3 (counterexample): on the spec's example raw comment, `cleanup_comment`
does not return the output the claim states.  Each line is in fact re-sliced
from offset 3 of the untrimmed line and stripped, and blank lines are dropped
entirely, so neither the claimed text nor the claimed "<br><br>" separator
appears. -/
theorem c3_counterexample :
    cleanup_comment "/** @brief Does X.\n\n Full text here.\n\n More text.\n*/"
      ≠ " Full text here.<br><br> More text." := by decide

/-- C3 (amended): on the spec's example raw comment, the brief line is
dropped and `cleanup_comment` returns exactly "ll text here.<br>re text.":
every line is sliced from offset 3 of the untrimmed original line and then
stripped (swallowing the leading space and two letters of the body lines),
and the blank lines are dropped entirely, so a single "<br>" separates the
two surviving lines. -/
theorem c3_actual_output :
    cleanup_comment "/** @brief Does X.\n\n Full text here.\n\n More text.\n*/"
      = "ll text here.<br>re text." := by decide

/-- C4 (counterexample): a single blank line between two non-blank surviving
lines is NOT preserved as an empty segment: the two lines are joined by a
single "<br>", not the "a<br><br>b" the claim implies. -/
theorem c4_counterexample :
    cleanup_comment "///a\n\n///b" = "a<br>b" ∧
      cleanup_comment "///a\n\n///b" ≠ "a<br><br>b" := by decide

/-- C4 (amended): a cleaned blank line is always dropped, regardless of the
previously emitted line: `prev_line` is assigned the current cleaned line
before the blank test, so the condition "current is blank and previous is
blank" is true whenever the current cleaned line is blank, and a blank line
never contributes a segment to the output. -/
theorem c4_blank_line_always_dropped (st : CommentState) (line : String)
    (h : pyStrip (pyDrop line 3) = "") :
    (cleanupStep st line).clean_lines = st.clean_lines := by
  have hb : pyStartsWith "" "@brief" = false := by decide
  have hb2 : pyStartsWith "" "/brief" = false := by decide
  simp [cleanupStep, h, hb, hb2]

/-- C4 (witness): a blank line directly after a non-blank emitted line is
dropped all the same. -/
theorem c4_witness : (cleanupStep ⟨["a"], "a", false⟩ "  ").clean_lines = ["a"] :=
  c4_blank_line_always_dropped ⟨["a"], "a", false⟩ "  " (by decide)

/-- C10 (counterexample): the returned markup CAN end with "<br>" (and can
contain adjacent "<br>" runs) when a comment line's own text contains the
literal text "<br>": the claim's substring formulations fail on such input. -/
theorem c10_counterexample :
    cleanup_comment "///x<br>" = "x<br>" ∧
      pyEndsWith (cleanup_comment "///x<br>") "<br>" = true := by decide

/-- C10 (amended): for every raw comment string, every line `cleanup_comment`
emits is non-empty — a cleaned-to-blank line is never appended — so the
"<br>" separators introduced by the join never create empty segments;
adjacent, leading or trailing "<br>" can arise only from literal "<br>"
text inside a surviving comment line. -/
theorem c10_emitted_lines_nonempty (raw l : String)
    (hl : l ∈ cleanup_lines raw) : l ≠ "" :=
  cleanup_fold_nonempty (pySplit raw '\n') ⟨[], "", false⟩ (by simp) l
    (by simpa [cleanup_lines] using hl)

/-- C10 (witness): the sole line emitted for "///abc" is "abc", which is
non-empty. -/
theorem c10_witness : "abc" ∈ cleanup_lines "///abc" ∧ "abc" ≠ "" :=
  ⟨by decide, c10_emitted_lines_nonempty "///abc" "abc" (by decide)⟩

/- ### Embedding of the library locator (ClangUtils.find_libclang_dir) -/

/-- ClangUtils.windows_suffixes. -/
def windows_suffixes : List String := [".dll", ".lib"]

/-- ClangUtils.linux_suffixes. -/
def linux_suffixes : List String := [".so", ".so.1"]

/-- ClangUtils.osx_suffixes. -/
def osx_suffixes : List String := [".dylib"]

/-- ClangUtils.suffixes: suffix list per platform. -/
def suffixes : Platform → List String
  | Platform.windows => windows_suffixes
  | Platform.linux => linux_suffixes
  | Platform.darwin => osx_suffixes

/-- ClangUtils.possible_filenames: candidate basenames per platform. -/
def possible_filenames : Platform → List String
  | Platform.windows => ["libclang", "clang"]
  | Platform.linux => ["libclang-$version", "libclang"]
  | Platform.darwin => ["libclang"]

/-- ClangUtils.dir_from_output: platform-specific rule deriving the library
directory from the compiler's raw output.  (The trailing `return None` of
the Python function is unreachable for the three modelled systems.) -/
def dir_from_output (sys : Platform) (env : OsEnv) (output : String) : String :=
  match sys with
  | Platform.darwin => env.join (env.join output "..") ".."
  | Platform.windows => env.normpath output
  | Platform.linux => env.normpath (env.dirname output)

/-- ClangUtils.try_load_from_user_hint: the hinted file's directory when the
hinted path exists, `none` (Python `None`) otherwise. -/
def try_load_from_user_hint (env : OsEnv) (libclang_path : String) : Option String :=
  if env.pathExists libclang_path then some (env.dirname libclang_path) else none

/-- The (suffix, basename) pairs in the order the two nested `for` loops of
`find_libclang_dir` enumerate them: suffix outer, basename inner. -/
def candidates (sys : Platform) : List (String × String) :=
  ((suffixes sys).map
    (fun suffix => (possible_filenames sys).map (fun name => (suffix, name)))).flatten

/-- The target filename of a candidate: basename ++ suffix, with "$version"
substituted by the truncated version string on Linux. -/
def candidateFile (sys : Platform) (version_str : String) (c : String × String) : String :=
  let file := c.2 ++ c.1
  if sys = Platform.linux then pyReplace file "$version" version_str else file

/-- The external invocation built per candidate: `-print-file-name=` on
macOS, `-print-prog-name=` on Windows, `-print-file-name=<file>` on Linux. -/
def candidateCmd (sys : Platform) (clang_binary file : String) : List String :=
  match sys with
  | Platform.darwin => [clang_binary, "-print-file-name="]
  | Platform.windows => [clang_binary, "-print-prog-name="]
  | Platform.linux => [clang_binary, "-print-file-name=" ++ file]

/-- Result of processing one candidate inside the loop body: the invocation
raised, the candidate verified (directory exists and directory/file exists),
or the candidate did not verify and the loop continues. -/
inductive CandidateStep where
  | raised
  | found (dir file : String)
  | noMatch
deriving DecidableEq

/-- The body of the inner loop of `find_libclang_dir` for one candidate:
invoke the compiler, strip its output, derive a directory and verify it on
the filesystem. -/
def tryCandidate (sys : Platform) (env : OsEnv) (clang_binary version_str : String)
    (c : String × String) : CandidateStep :=
  let file := candidateFile sys version_str c
  match env.run (candidateCmd sys clang_binary file) with
  | none => CandidateStep.raised
  | some raw =>
    let output := pyStrip raw
    if output ≠ "" then
      let dir := dir_from_output sys env output
      if env.isdir dir then
        if env.pathExists (env.join dir file) then CandidateStep.found dir file
        else CandidateStep.noMatch
      else CandidateStep.noMatch
    else CandidateStep.noMatch

/-- Whether a candidate passes verification (the loop would return its
directory). -/
def verifiesB (sys : Platform) (env : OsEnv) (clang_binary version_str : String)
    (c : String × String) : Bool :=
  match tryCandidate sys env clang_binary version_str c with
  | CandidateStep.found _ _ => true
  | _ => false

/-- Outcome of one call to `find_libclang_dir`: found a directory, exhausted
all candidates (Python returns `None`), or an exception escaped. -/
inductive SearchRes where
  | found (dir : String)
  | notFound
  | raised
deriving DecidableEq

/-- Observable result of a call: the returned value (or escaped exception),
the value of the process-wide `ClangUtils.libclang_name` after the call, and
the candidates whose external invocation was attempted, in order. -/
structure SearchResult where
  res : SearchRes
  cache : Option String
  queried : List (String × String)
deriving DecidableEq

/-- The candidate loop of `find_libclang_dir`, threading the cached
`libclang_name` and recording which candidates were queried. -/
def searchLoop (sys : Platform) (env : OsEnv) (clang_binary version_str : String) :
    List (String × String) → Option String → SearchResult
  | [], cache => ⟨SearchRes.notFound, cache, []⟩
  | c :: rest, cache =>
    match tryCandidate sys env clang_binary version_str c with
    | CandidateStep.raised => ⟨SearchRes.raised, cache, [c]⟩
    | CandidateStep.found dir file => ⟨SearchRes.found dir, some file, [c]⟩
    | CandidateStep.noMatch =>
      let r := searchLoop sys env clang_binary version_str rest cache
      ⟨r.res, r.cache, c :: r.queried⟩

/-- ClangUtils.find_libclang_dir: user-hint fast path, then the candidate
search.  `clang_version` is the externally configured version string
(`SettingsStorage.CLANG_VERSION`), truncated by `[:-2]` before use; the
truncation is hoisted before the branch, which is sound as it is pure and
only consulted on Linux. -/
def find_libclang_dir (sys : Platform) (env : OsEnv)
    (clang_binary libclang_path clang_version : String)
    (cache : Option String) : SearchResult :=
  let version_str := pyDropRight clang_version 2
  if libclang_path ≠ "" then
    match try_load_from_user_hint env libclang_path with
    | some libclang_dir =>
      if libclang_dir ≠ "" then
        ⟨SearchRes.found libclang_dir, some (env.basename libclang_path), []⟩
      else searchLoop sys env clang_binary version_str (candidates sys) cache
    | none => searchLoop sys env clang_binary version_str (candidates sys) cache
  else searchLoop sys env clang_binary version_str (candidates sys) cache

example : candidates Platform.linux =
    [(".so", "libclang-$version"), (".so", "libclang"),
     (".so.1", "libclang-$version"), (".so.1", "libclang")] := by decide

example : candidateFile Platform.linux "3.8" (".so", "libclang-$version")
    = "libclang-3.8.so" := by decide

/- ### Properties of the candidate search loop -/

/-- A candidate reporting `raised` means its invocation returned no output
(the `subprocess.check_output` call raised). -/
theorem tryCandidate_raised_run (sys : Platform) (env : OsEnv)
    (clang_binary version_str : String) (c : String × String)
    (h : tryCandidate sys env clang_binary version_str c = CandidateStep.raised) :
    env.run (candidateCmd sys clang_binary (candidateFile sys version_str c)) = none := by
  simp only [tryCandidate] at h
  cases hr : env.run (candidateCmd sys clang_binary (candidateFile sys version_str c)) with
  | none => rfl
  | some raw =>
    rw [hr] at h
    repeat' split at h
    all_goals simp_all

/-- A candidate whose invocation does not raise and which does not verify is
a `noMatch`: the loop moves on. -/
theorem tryCandidate_nomatch_of (sys : Platform) (env : OsEnv)
    (clang_binary version_str : String) (c : String × String)
    (hrun : env.run (candidateCmd sys clang_binary (candidateFile sys version_str c)) ≠ none)
    (hv : verifiesB sys env clang_binary version_str c = false) :
    tryCandidate sys env clang_binary version_str c = CandidateStep.noMatch := by
  unfold verifiesB at hv
  cases h : tryCandidate sys env clang_binary version_str c with
  | noMatch => rfl
  | found d f => rw [h] at hv; simp at hv
  | raised => exact absurd (tryCandidate_raised_run sys env clang_binary version_str c h) hrun

/-- When the hint fast path does not fire, `find_libclang_dir` is the
candidate search. -/
theorem find_libclang_dir_eq_search (sys : Platform) (env : OsEnv)
    (clang_binary libclang_path clang_version : String) (cache : Option String)
    (h : libclang_path = "" ∨ try_load_from_user_hint env libclang_path = none
      ∨ try_load_from_user_hint env libclang_path = some "") :
    find_libclang_dir sys env clang_binary libclang_path clang_version cache =
      searchLoop sys env clang_binary (pyDropRight clang_version 2) (candidates sys) cache := by
  rcases h with h | h | h
  · simp [find_libclang_dir, h]
  · simp [find_libclang_dir, h]
  · simp [find_libclang_dir, h]

/-- If the first `i` candidates are non-matches and candidate `i` raises,
the loop aborts there: result `raised`, cache untouched, exactly the first
`i + 1` candidates queried. -/
theorem searchLoop_raised_at (sys : Platform) (env : OsEnv)
    (clang_binary version_str : String) :
    ∀ (cs : List (String × String)) (i : Nat) (cache : Option String),
      i < cs.length →
      (∀ c ∈ cs.take i,
        tryCandidate sys env clang_binary version_str c = CandidateStep.noMatch) →
      tryCandidate sys env clang_binary version_str (cs.getD i ("", ""))
        = CandidateStep.raised →
      searchLoop sys env clang_binary version_str cs cache
        = ⟨SearchRes.raised, cache, cs.take (i + 1)⟩ := by
  intro cs
  induction cs with
  | nil => intro i cache hi; exact absurd hi (by simp)
  | cons c rest ih =>
    intro i cache hi hbefore hraise
    cases i with
    | zero =>
      simp only [List.getD_cons_zero] at hraise
      simp [searchLoop, hraise]
    | succ n =>
      have hc : tryCandidate sys env clang_binary version_str c = CandidateStep.noMatch :=
        hbefore c (by simp [List.take_succ_cons])
      have hrec := ih n cache (by simpa using hi)
        (fun x hx => hbefore x (by simp [List.take_succ_cons, hx]))
        (by simpa using hraise)
      simp [searchLoop, hc, hrec, List.take_succ_cons]

/-- If the first `i` candidates are non-matches and candidate `i` verifies,
the loop returns its directory, caches its filename, and queries exactly the
first `i + 1` candidates. -/
theorem searchLoop_found_at (sys : Platform) (env : OsEnv)
    (clang_binary version_str : String) :
    ∀ (cs : List (String × String)) (i : Nat) (cache : Option String) (d f : String),
      i < cs.length →
      (∀ c ∈ cs.take i,
        tryCandidate sys env clang_binary version_str c = CandidateStep.noMatch) →
      tryCandidate sys env clang_binary version_str (cs.getD i ("", ""))
        = CandidateStep.found d f →
      searchLoop sys env clang_binary version_str cs cache
        = ⟨SearchRes.found d, some f, cs.take (i + 1)⟩ := by
  intro cs
  induction cs with
  | nil => intro i cache d f hi; exact absurd hi (by simp)
  | cons c rest ih =>
    intro i cache d f hi hbefore hfound
    cases i with
    | zero =>
      simp only [List.getD_cons_zero] at hfound
      simp [searchLoop, hfound]
    | succ n =>
      have hc : tryCandidate sys env clang_binary version_str c = CandidateStep.noMatch :=
        hbefore c (by simp [List.take_succ_cons])
      have hrec := ih n cache d f (by simpa using hi)
        (fun x hx => hbefore x (by simp [List.take_succ_cons, hx]))
        (by simpa using hfound)
      simp [searchLoop, hc, hrec, List.take_succ_cons]

/-- If every candidate is a non-match, the loop exhausts the list: result
`notFound`, cache untouched, every candidate queried. -/
theorem searchLoop_all_nomatch (sys : Platform) (env : OsEnv)
    (clang_binary version_str : String) :
    ∀ (cs : List (String × String)) (cache : Option String),
      (∀ c ∈ cs, tryCandidate sys env clang_binary version_str c = CandidateStep.noMatch) →
      searchLoop sys env clang_binary version_str cs cache
        = ⟨SearchRes.notFound, cache, cs⟩ := by
  intro cs
  induction cs with
  | nil => intro cache _; rfl
  | cons c rest ih =>
    intro cache h
    have hc := h c (by simp)
    have hrec := ih cache (fun x hx => h x (by simp [hx]))
    simp [searchLoop, hc, hrec]

/-- The loop writes the cache exactly on success: `raised` and `notFound`
leave it untouched, `found` sets it to some filename. -/
theorem searchLoop_cache_spec (sys : Platform) (env : OsEnv)
    (clang_binary version_str : String) :
    ∀ (cs : List (String × String)) (cache : Option String),
      ((searchLoop sys env clang_binary version_str cs cache).res = SearchRes.raised →
        (searchLoop sys env clang_binary version_str cs cache).cache = cache)
      ∧ ((searchLoop sys env clang_binary version_str cs cache).res = SearchRes.notFound →
        (searchLoop sys env clang_binary version_str cs cache).cache = cache)
      ∧ (∀ d, (searchLoop sys env clang_binary version_str cs cache).res = SearchRes.found d →
        ∃ f, (searchLoop sys env clang_binary version_str cs cache).cache = some f) := by
  intro cs
  induction cs with
  | nil =>
    intro cache
    refine ⟨fun _ => rfl, fun _ => rfl, fun d h => ?_⟩
    simp [searchLoop] at h
  | cons c rest ih =>
    intro cache
    cases htc : tryCandidate sys env clang_binary version_str c with
    | raised => refine ⟨?_, ?_, ?_⟩ <;> simp [searchLoop, htc]
    | found dir file => refine ⟨?_, ?_, ?_⟩ <;> simp [searchLoop, htc]
    | noMatch =>
      have hrest := ih cache
      refine ⟨?_, ?_, ?_⟩ <;> simp only [searchLoop, htc]
      · exact hrest.1
      · exact hrest.2.1
      · exact hrest.2.2

/- ### Concrete environments for witnesses and counterexamples -/

/-- Environment in which the invocation for the first Linux candidate
raises while the second candidate's invocation reports an existing library
file. -/
def failEnv : OsEnv :=
  { posixEnv with
    pathExists := fun p => p == "/usr/lib/libclang.so"
    isdir := fun p => p == "/usr/lib"
    run := fun cmd =>
      if cmd == ["clang", "-print-file-name=libclang-3.8.so"] then none
      else some (if cmd == ["clang", "-print-file-name=libclang.so"]
        then "/usr/lib/libclang.so\n" else "") }

/-- Environment with a single existing file "/a/x.so" and an invocation that
always captures empty output. -/
def hintEnv : OsEnv :=
  { posixEnv with pathExists := fun p => p == "/a/x.so" }

/-- Environment with a single existing file "x.so" (a bare relative
filename, whose dirname is empty). -/
def bareHintEnv : OsEnv :=
  { posixEnv with pathExists := fun p => p == "x.so" }

/-- Environment in which both "/a/x.so" and "/a/y.so" exist. -/
def twoHintEnv : OsEnv :=
  { posixEnv with pathExists := fun p => p == "/a/x.so" || p == "/a/y.so" }

/-- Environment in which only the third Linux candidate
(suffix ".so.1", basename "libclang-$version") verifies; the invocation
never raises. -/
def orderEnv : OsEnv :=
  { posixEnv with
    pathExists := fun p => p == "/usr/lib/libclang-3.8.so.1"
    isdir := fun p => p == "/usr/lib"
    run := fun cmd =>
      some (if cmd == ["clang", "-print-file-name=libclang-3.8.so.1"]
        then "/usr/lib/libclang-3.8.so.1" else "") }

/- ### C1: invocation failure handling -/

/-- C1 (counterexample): `find_libclang_dir` does NOT recover from a failing
invocation.  In `failEnv` the first Linux candidate's invocation raises; the
exception escapes (`SearchRes.raised`), even though the second candidate
verifies, and that second candidate is never queried. -/
theorem c1_counterexample :
    (find_libclang_dir Platform.linux failEnv "clang" "" "3.8.0" none).res
        = SearchRes.raised
    ∧ tryCandidate Platform.linux failEnv "clang" "3.8" (".so", "libclang")
        = CandidateStep.found "/usr/lib" "libclang.so"
    ∧ (".so", "libclang")
        ∉ (find_libclang_dir Platform.linux failEnv "clang" "" "3.8.0" none).queried := by
  decide

/-- C1 (amended): when the external invocation for a candidate fails, the
exception propagates out of `find_libclang_dir` (there is no local recovery):
the search aborts at that candidate with the cache untouched, and no later
candidate is tried, however many of them would have succeeded. -/
theorem c1_invocation_failure_propagates (sys : Platform) (env : OsEnv)
    (clang_binary libclang_path clang_version : String) (cache : Option String) (i : Nat)
    (hhint : libclang_path = "" ∨ try_load_from_user_hint env libclang_path = none
      ∨ try_load_from_user_hint env libclang_path = some "")
    (hi : i < (candidates sys).length)
    (hbefore : ∀ c ∈ (candidates sys).take i,
      tryCandidate sys env clang_binary (pyDropRight clang_version 2) c
        = CandidateStep.noMatch)
    (hraise : tryCandidate sys env clang_binary (pyDropRight clang_version 2)
        ((candidates sys).getD i ("", "")) = CandidateStep.raised) :
    find_libclang_dir sys env clang_binary libclang_path clang_version cache =
      ⟨SearchRes.raised, cache, (candidates sys).take (i + 1)⟩ := by
  rw [find_libclang_dir_eq_search sys env clang_binary libclang_path clang_version cache hhint]
  exact searchLoop_raised_at sys env clang_binary (pyDropRight clang_version 2)
    (candidates sys) i cache hi hbefore hraise

/-- C1 (witness): in `failEnv` the search aborts at the very first Linux
candidate with the exception escaping and the cache untouched. -/
theorem c1_witness :
    find_libclang_dir Platform.linux failEnv "clang" "" "3.8.0" none =
      ⟨SearchRes.raised, none, [(".so", "libclang-$version")]⟩ :=
  (c1_invocation_failure_propagates Platform.linux failEnv "clang" "" "3.8.0" none 0
    (Or.inl rfl) (by decide) (by decide) (by decide)).trans (by decide)

/- ### C2: the user-hint fast path -/

/-- C2 (counterexample): a non-empty user hint naming an existing file is
NOT always honoured.  For the bare relative hint "x.so" the file exists but
its dirname is the empty string, which is falsy in Python, so the fast path
is skipped: the call runs the platform search and returns `notFound` with
the cache still unset, instead of returning the parent directory and caching
the basename. -/
theorem c2_counterexample :
    bareHintEnv.pathExists "x.so" = true
    ∧ bareHintEnv.dirname "x.so" = ""
    ∧ (find_libclang_dir Platform.linux bareHintEnv "clang" "x.so" "3.8.0" none).res
        = SearchRes.notFound
    ∧ (find_libclang_dir Platform.linux bareHintEnv "clang" "x.so" "3.8.0" none).cache
        = none := by
  decide

/-- C2 (amended): for every non-empty user hint that names an existing path
whose parent directory (dirname) is non-empty, `find_libclang_dir` returns
that parent directory, caches the hint's basename, and performs no compiler
invocation at all, on every platform. -/
theorem c2_user_hint_fast_path (sys : Platform) (env : OsEnv)
    (clang_binary libclang_path clang_version : String) (cache : Option String)
    (hne : libclang_path ≠ "") (hex : env.pathExists libclang_path = true)
    (hdir : env.dirname libclang_path ≠ "") :
    find_libclang_dir sys env clang_binary libclang_path clang_version cache =
      ⟨SearchRes.found (env.dirname libclang_path),
        some (env.basename libclang_path), []⟩ := by
  simp [find_libclang_dir, try_load_from_user_hint, hne, hex, hdir]

/-- C2 (witness): the hint "/a/x.so" in `hintEnv` short-circuits the search
on Linux: parent directory "/a", cached basename "x.so", nothing queried. -/
theorem c2_witness :
    find_libclang_dir Platform.linux hintEnv "clang" "/a/x.so" "3.8.0" none =
      ⟨SearchRes.found "/a", some "x.so", []⟩ :=
  (c2_user_hint_fast_path Platform.linux hintEnv "clang" "/a/x.so" "3.8.0" none
    (by decide) (by decide) (by decide)).trans (by decide)

/- ### C5: cache write behaviour -/

/-- C5 (counterexample): the cached filename is NOT write-once per process.
A first call with hint "/a/x.so" sets the cache to "x.so"; a second call
with hint "/a/y.so", starting from that cache, overwrites it with "y.so". -/
theorem c5_counterexample :
    (find_libclang_dir Platform.linux twoHintEnv "clang" "/a/x.so" "3.8.0" none).cache
        = some "x.so"
    ∧ (find_libclang_dir Platform.linux twoHintEnv "clang" "/a/y.so" "3.8.0"
        (find_libclang_dir Platform.linux twoHintEnv "clang" "/a/x.so" "3.8.0" none).cache).cache
        = some "y.so"
    ∧ (some "y.so" : Option String) ≠ some "x.so" := by
  decide

/-- C5 (amended): within one call the cache is written at most once, and
only on success: a call that raises or exhausts the candidates leaves the
cache exactly as it was, and a call that returns a directory leaves the
cache holding some filename.  Each successful call (re)assigns the cache
unconditionally, so the latest success wins, not the first. -/
theorem c5_cache_write_semantics (sys : Platform) (env : OsEnv)
    (clang_binary libclang_path clang_version : String) (cache : Option String) :
    ((find_libclang_dir sys env clang_binary libclang_path clang_version cache).res
        = SearchRes.raised →
      (find_libclang_dir sys env clang_binary libclang_path clang_version cache).cache
        = cache)
    ∧ ((find_libclang_dir sys env clang_binary libclang_path clang_version cache).res
        = SearchRes.notFound →
      (find_libclang_dir sys env clang_binary libclang_path clang_version cache).cache
        = cache)
    ∧ (∀ d, (find_libclang_dir sys env clang_binary libclang_path clang_version cache).res
        = SearchRes.found d →
      ∃ f, (find_libclang_dir sys env clang_binary libclang_path clang_version cache).cache
        = some f) := by
  simp only [find_libclang_dir]
  split
  · split
    · split
      · refine ⟨?_, ?_, ?_⟩ <;> simp
      · exact searchLoop_cache_spec sys env clang_binary (pyDropRight clang_version 2)
          (candidates sys) cache
    · exact searchLoop_cache_spec sys env clang_binary (pyDropRight clang_version 2)
        (candidates sys) cache
  · exact searchLoop_cache_spec sys env clang_binary (pyDropRight clang_version 2)
      (candidates sys) cache

/-- C5 (witness): an exhausted search (empty filesystem, empty outputs)
leaves a previously set cache untouched. -/
theorem c5_witness :
    (find_libclang_dir Platform.linux posixEnv "clang" "" "3.8.0"
      (some "libclang.so")).cache = some "libclang.so" :=
  (c5_cache_write_semantics Platform.linux posixEnv "clang" "" "3.8.0"
    (some "libclang.so")).2.1 (by decide)

/- ### C6: deterministic enumeration order -/

/-- C6: candidates are enumerated with the suffix list as the outer loop and
the basename list as the inner loop, in the platform's fixed order (that is
the order of `candidates`).  Under an invocation capability that never
fails, if no candidate among the first `i` verifies and candidate `i`
verifies, then the call queries exactly the first `i + 1` candidates in
order, returns candidate `i`'s directory and caches its filename; no later
candidate is ever queried. -/
theorem c6_enumeration_order (sys : Platform) (env : OsEnv)
    (clang_binary libclang_path clang_version : String) (cache : Option String)
    (i : Nat) (d f : String)
    (hhint : libclang_path = "" ∨ try_load_from_user_hint env libclang_path = none
      ∨ try_load_from_user_hint env libclang_path = some "")
    (htotal : ∀ cmd, env.run cmd ≠ none)
    (hi : i < (candidates sys).length)
    (hbefore : ∀ c ∈ (candidates sys).take i,
      verifiesB sys env clang_binary (pyDropRight clang_version 2) c = false)
    (hfound : tryCandidate sys env clang_binary (pyDropRight clang_version 2)
        ((candidates sys).getD i ("", "")) = CandidateStep.found d f) :
    find_libclang_dir sys env clang_binary libclang_path clang_version cache =
      ⟨SearchRes.found d, some f, (candidates sys).take (i + 1)⟩ := by
  rw [find_libclang_dir_eq_search sys env clang_binary libclang_path clang_version cache hhint]
  exact searchLoop_found_at sys env clang_binary (pyDropRight clang_version 2)
    (candidates sys) i cache d f hi
    (fun c hc => tryCandidate_nomatch_of sys env clang_binary (pyDropRight clang_version 2) c
      (htotal _) (hbefore c hc))
    hfound

/-- C6 (witness): in `orderEnv` only the third Linux candidate (suffix
".so.1", basename "libclang-$version") verifies; the call queries exactly
the first three candidates in order and returns "/usr/lib", caching the
substituted filename "libclang-3.8.so.1". -/
theorem c6_witness :
    find_libclang_dir Platform.linux orderEnv "clang" "" "3.8.0" none =
      ⟨SearchRes.found "/usr/lib", some "libclang-3.8.so.1",
        [(".so", "libclang-$version"), (".so", "libclang"),
         (".so.1", "libclang-$version")]⟩ :=
  (c6_enumeration_order Platform.linux orderEnv "clang" "" "3.8.0" none 2
    "/usr/lib" "libclang-3.8.so.1" (Or.inl rfl)
    (fun cmd => by simp [orderEnv]) (by decide) (by decide) (by decide)).trans (by decide)

/- ### C7: exhaustion returns NotFound and leaves the cache alone -/

/-- C7: under an invocation capability that never fails, if no candidate
verifies (for example every invocation yields empty output, or the derived
directory or directory/filename never exists), `find_libclang_dir` returns
`notFound` (Python `None`) after querying every candidate, and the cached
`libclang_name` is exactly what it was before the call — in particular it
stays unset if it was unset. -/
theorem c7_exhaustion_not_found (sys : Platform) (env : OsEnv)
    (clang_binary libclang_path clang_version : String) (cache : Option String)
    (hhint : libclang_path = "" ∨ try_load_from_user_hint env libclang_path = none
      ∨ try_load_from_user_hint env libclang_path = some "")
    (htotal : ∀ cmd, env.run cmd ≠ none)
    (hnone : ∀ c ∈ candidates sys,
      verifiesB sys env clang_binary (pyDropRight clang_version 2) c = false) :
    find_libclang_dir sys env clang_binary libclang_path clang_version cache =
      ⟨SearchRes.notFound, cache, candidates sys⟩ := by
  rw [find_libclang_dir_eq_search sys env clang_binary libclang_path clang_version cache hhint]
  exact searchLoop_all_nomatch sys env clang_binary (pyDropRight clang_version 2)
    (candidates sys) cache
    (fun c hc => tryCandidate_nomatch_of sys env clang_binary (pyDropRight clang_version 2) c
      (htotal _) (hnone c hc))

/-- C7 (witness): with every invocation capturing empty output and an empty
filesystem, the Linux search queries all four candidates, returns `notFound`
and leaves the (unset) cache unset. -/
theorem c7_witness :
    find_libclang_dir Platform.linux posixEnv "clang" "" "3.8.0" none =
      ⟨SearchRes.notFound, none, candidates Platform.linux⟩ :=
  c7_exhaustion_not_found Platform.linux posixEnv "clang" "" "3.8.0" none
    (Or.inl rfl) (fun cmd => by simp [posixEnv]) (by decide)

/- ### C8: dir_from_output per platform -/

/-- C8: `dir_from_output` is a pure per-platform function of the output
string: on macOS it appends "../.." via path joining; on Windows it returns
the normalized output as-is; on Linux it returns the normalized parent
directory — together with concrete evaluations on representative posix
paths. -/
theorem c8_dir_from_output :
    (∀ (env : OsEnv) (out : String),
      dir_from_output Platform.darwin env out = env.join (env.join out "..") "..")
    ∧ (∀ (env : OsEnv) (out : String),
      dir_from_output Platform.windows env out = env.normpath out)
    ∧ (∀ (env : OsEnv) (out : String),
      dir_from_output Platform.linux env out = env.normpath (env.dirname out))
    ∧ dir_from_output Platform.darwin posixEnv "/usr/lib/libclang.dylib"
        = "/usr/lib/libclang.dylib/../.."
    ∧ dir_from_output Platform.linux posixEnv "/usr/lib/llvm/libclang.so"
        = "/usr/lib/llvm" :=
  ⟨fun _ _ => rfl, fun _ _ => rfl, fun _ _ => rfl, by decide, by decide⟩

/- ### C9: link_from_location -/

/-- A file object as exposed by a cursor location: only its name is
consulted. -/
structure ClangFile where
  name : String
deriving DecidableEq

/-- A source location: an optional file plus line and column numbers. -/
structure SourceLocation where
  file : Option ClangFile
  line : Nat
  column : Nat
deriving DecidableEq

/-- ClangUtils.link_from_location: build an anchor string from a location
when it carries a file with a non-empty name, otherwise return the text
unchanged.  The Python truthiness chain `location and location.file and
location.file.name` is the nested option match plus the non-empty check. -/
def link_from_location (location : Option SourceLocation) (text : String) : String :=
  match location with
  | none => text
  | some loc =>
    match loc.file with
    | none => text
    | some f =>
      if f.name ≠ "" then
        "<a href=\"" ++ f.name ++ ":" ++ toString loc.line ++ ":"
          ++ toString loc.column ++ "\">" ++ text ++ "</a>"
      else text

/-- C9: whenever the location is present with a file of non-empty name,
`link_from_location` returns the anchor '<a href="FILE:LINE:COLUMN">text</a>';
in every other case (absent location, absent file, empty file name) it
returns the text unchanged; the text itself is inserted verbatim, never
escaped or altered. -/
theorem c9_link_from_location :
    (∀ (fname : String) (ln col : Nat) (text : String), fname ≠ "" →
      link_from_location (some ⟨some ⟨fname⟩, ln, col⟩) text =
        "<a href=\"" ++ fname ++ ":" ++ toString ln ++ ":" ++ toString col
          ++ "\">" ++ text ++ "</a>")
    ∧ (∀ text, link_from_location none text = text)
    ∧ (∀ (ln col : Nat) (text : String),
      link_from_location (some ⟨none, ln, col⟩) text = text)
    ∧ (∀ (ln col : Nat) (text : String),
      link_from_location (some ⟨some ⟨""⟩, ln, col⟩) text = text)
    ∧ link_from_location (some ⟨some ⟨"/a/b.h"⟩, 10, 4⟩) "foo"
        = "<a href=\"/a/b.h:10:4\">foo</a>" := by
  refine ⟨fun fname ln col text h => ?_, fun text => rfl, fun ln col text => rfl,
    fun ln col text => by simp [link_from_location], by decide⟩
  simp [link_from_location, h]

/-- C9 (witness): the spec's example location yields the example anchor. -/
theorem c9_witness :
    link_from_location (some ⟨some ⟨"/a/b.h"⟩, 10, 4⟩) "foo"
      = "<a href=\"/a/b.h:10:4\">foo</a>" :=
  c9_link_from_location.1 "/a/b.h" 10 4 "foo" (by decide)
